import Mathlib

/-!
Shallow embedding of the dite-chat client screens: the root-layout route
guard, the email-verification state machine (`app/auth/verify.tsx`) and the
settings-screen account-deletion action (`app/settings.tsx`).  JavaScript
truthiness is modelled explicitly where the source relies on it
(`Option String` for possibly-undefined strings, a three-valued type for the
`email_confirmed_at` field which may be undefined, null or a string).
-/

namespace DiteChat

/-- The JavaScript value of `session.user.email_confirmed_at`: the field may
be absent (`undefined`), explicitly `null`, or a timestamp string. -/
inductive ConfField
  | undef
  | nullv
  | str (s : String)
deriving DecidableEq, Repr

/-- JavaScript truthiness of the confirmation field: `undefined`, `null` and
the empty string are falsy; a non-empty string is truthy. -/
def ConfField.truthy : ConfField → Bool
  | .undef => false
  | .nullv => false
  | .str s => s != ""

/-- Strict equality with `null` (`=== null`): true only for the `null` value,
not for `undefined`. -/
def ConfField.isNull : ConfField → Bool
  | .nullv => true
  | _ => false

/-- The user object carried by a session; only the field the route guard
reads is modelled. -/
structure SessionUser where
  email_confirmed_at : ConfField
deriving DecidableEq, Repr

/-- A session as read by the route guard; `user` is optional because the
source guards on `session.user &&`. -/
structure Session where
  user : Option SessionUser
deriving DecidableEq, Repr

/-- JavaScript truthiness of a possibly-undefined string (used for the two
environment variables): absent or empty is falsy. -/
def jsStrTruthy : Option String → Bool
  | none => false
  | some s => s != ""

/-- `app/_layout.tsx` line 26:
`const missingEnvVars = !process.env.EXPO_PUBLIC_SUPABASE_URL || !process.env.EXPO_PUBLIC_SUPABASE_ANON_KEY`. -/
def missingEnvVars (url key : Option String) : Bool :=
  !jsStrTruthy url || !jsStrTruthy key

/-- `app/_layout.tsx` line 59, the redirect flag on the `(tabs)` screen:
`!session || (session.user && !session.user.email_confirmed_at)`.
When `session.user` is absent the `&&` short-circuits to a falsy value, so
the flag is false. -/
def tabsRedirect (session : Option Session) : Bool :=
  match session with
  | none => true
  | some s =>
    match s.user with
    | none => false
    | some u => !u.email_confirmed_at.truthy

/-- `session.user?.email_confirmed_at`: optional chaining yields `undefined`
when `user` is absent. -/
def Session.userConf (s : Session) : ConfField :=
  match s.user with
  | none => ConfField.undef
  | some u => u.email_confirmed_at

/-- `app/_layout.tsx` line 64, the redirect flag on the `auth` screen:
`!!session && session.user?.email_confirmed_at !== null`. -/
def authRedirect (session : Option Session) : Bool :=
  match session with
  | none => false
  | some s => !(s.userConf).isNull

/-- Which of the route guard's screen states are active.  `loadingActive`
and `setupActive` come from the two early returns of `RootLayout`;
`mainActive` / `authActive` mean the corresponding stack screen is not
redirected away.  When all four are false, routing falls through to the
`+not-found` screen. -/
structure GuardOutput where
  loadingActive : Bool
  setupActive : Bool
  mainActive : Bool
  authActive : Bool
deriving DecidableEq, Repr

/-- `RootLayout` from `app/_layout.tsx`: return Loading while the session is
loading, SetupRequired when an environment variable is missing, otherwise
render the stack whose two screens carry the redirect flags above. -/
def RootLayout (loading : Bool) (url key : Option String)
    (session : Option Session) : GuardOutput :=
  if loading then
    { loadingActive := true, setupActive := false,
      mainActive := false, authActive := false }
  else if missingEnvVars url key then
    { loadingActive := false, setupActive := true,
      mainActive := false, authActive := false }
  else
    { loadingActive := false, setupActive := false,
      mainActive := !tabsRedirect session,
      authActive := !authRedirect session }

/-- How many of the four screen states are active. -/
def GuardOutput.activeCount (g : GuardOutput) : Nat :=
  g.loadingActive.toNat + g.setupActive.toNat + g.mainActive.toNat + g.authActive.toNat

/-- The degenerate sessions on which both stack screens are redirected away:
a user object whose confirmation field is neither `null` nor a non-empty
string (i.e. it is absent, or an empty string). -/
def bothRedirected (session : Option Session) : Bool :=
  match session with
  | none => false
  | some s =>
    match s.user with
    | none => false
    | some u => !u.email_confirmed_at.truthy && !u.email_confirmed_at.isNull

/-- Claim C1 (evaluation of the code at the failing input): with loading
finished and configuration present, a session whose user carries no
confirmation field at all (`undefined`) does NOT activate `AuthArea` — both
stack screens are redirected and no screen state is active — whereas the
unconfirmed user whose field is an explicit `null` does get `AuthArea`.
The spec's edge-case policy says the two must be treated identically. -/
theorem C1_routeGuard_undef_conf_loses_authArea :
    (RootLayout false (some "https://example.supabase.co") (some "anon-key")
        (some { user := some { email_confirmed_at := ConfField.undef } })).authActive
      = false ∧
    (RootLayout false (some "https://example.supabase.co") (some "anon-key")
        (some { user := some { email_confirmed_at := ConfField.undef } })).activeCount
      = 0 ∧
    (RootLayout false (some "https://example.supabase.co") (some "anon-key")
        (some { user := some { email_confirmed_at := ConfField.nullv } })).authActive
      = true := by
  decide

/-- Claim C2 (counterexample): on a session whose user's confirmation field
is absent, the route guard activates zero of the four screen states, so
"exactly one screen state is active" fails at this input. -/
theorem C2_routeGuard_exactlyOne_fails :
    ¬ (RootLayout false (some "https://example.supabase.co") (some "anon-key")
        (some { user := some { email_confirmed_at := ConfField.undef } })).activeCount
      = 1 := by
  decide

/-- Claim C2 (amended): for every combination of inputs, at most one of the
four screen states is active; and zero are active exactly when loading is
finished, configuration is present, and the session has a user whose
confirmation field is neither `null` nor a non-empty string (absent or
empty), in which case routing falls through to the not-found screen. -/
theorem C2_routeGuard_atMostOne (loading : Bool) (url key : Option String)
    (session : Option Session) :
    (RootLayout loading url key session).activeCount ≤ 1 ∧
    ((RootLayout loading url key session).activeCount = 0 ↔
      loading = false ∧ missingEnvVars url key = false ∧
        bothRedirected session = true) := by
  cases loading with
  | true => simp [RootLayout, GuardOutput.activeCount]
  | false =>
    cases h : missingEnvVars url key with
    | true => simp [RootLayout, h, GuardOutput.activeCount]
    | false =>
      cases session with
      | none =>
        simp [RootLayout, h, GuardOutput.activeCount, tabsRedirect, authRedirect,
          bothRedirected]
      | some s =>
        obtain ⟨u⟩ := s
        cases u with
        | none =>
          simp [RootLayout, h, GuardOutput.activeCount, tabsRedirect, authRedirect,
            bothRedirected, Session.userConf, ConfField.isNull]
        | some su =>
          obtain ⟨c⟩ := su
          cases c with
          | undef =>
            simp [RootLayout, h, GuardOutput.activeCount, tabsRedirect, authRedirect,
              bothRedirected, Session.userConf, ConfField.isNull, ConfField.truthy]
          | nullv =>
            simp [RootLayout, h, GuardOutput.activeCount, tabsRedirect, authRedirect,
              bothRedirected, Session.userConf, ConfField.isNull, ConfField.truthy]
          | str t =>
            by_cases hs : t = ""
            · subst hs
              simp [RootLayout, h, GuardOutput.activeCount, tabsRedirect, authRedirect,
                bothRedirected, Session.userConf, ConfField.isNull, ConfField.truthy]
            · simp [RootLayout, h, GuardOutput.activeCount, tabsRedirect, authRedirect,
                bothRedirected, Session.userConf, ConfField.isNull, ConfField.truthy, hs,
                Bool.toNat_le]

/-! ## Verification state machine (`app/auth/verify.tsx`) -/

/-- A JavaScript error value as read by the catch blocks: `err.message` and
`err.originalError` (absent on most errors). -/
structure JSError where
  message : String
  originalError : Option String
deriving DecidableEq, Repr

/-- The state hooks of `VerifyEmailScreen`: `verificationCode` (six cells),
`error` (the last error banner, the spec's `lastError`), `isLoading` (the
busy flag, the spec's `isSubmitting`) and `resendCooldown`. -/
structure VerifyState where
  verificationCode : List String
  error : Option String
  isLoading : Bool
  resendCooldown : Nat
deriving DecidableEq, Repr

/-- The view-level input filter `text.replace(/[^0-9]/g, '')` applied before
`handleCodeChange` is invoked (line 213). -/
def filterDigits (text : String) : String :=
  String.mk (text.data.filter Char.isDigit)

/-- `handleCodeChange` (lines 67-78): write `text` into cell `index` of the
code array and, when exactly one character was entered at an index below 5,
signal the view to focus the next input.  Returns the new array and the
optional focus-advance signal. -/
def handleCodeChange (code : List String) (text : String) (index : Nat) :
    List String × Option Nat :=
  (code.set index text,
    if text.length = 1 ∧ index < 5 then some (index + 1) else none)

/-- Navigation signals issued via `router.replace`. -/
inductive Nav
  | tabs
  | signIn
deriving DecidableEq, Repr

/-- Modelled from the spec: `verifyOneTimeCode(email, code) -> {session?, error?}`
— the `useSupabaseAuth` hook implementing `verifyOTP` is not part of the
shown source.  `sessionPresent` is the truthiness of `data?.session`. -/
structure VerifyResult where
  error : Option JSError
  sessionPresent : Bool
deriving DecidableEq, Repr

/-- The validation message of `handleVerify` line 94. -/
def incompleteCodeMsg : String :=
  "Please enter all 6 digits of your verification code"

/-- The final fallback message of `handleVerify` line 141. -/
def verifyFallbackMsg : String :=
  "Failed to verify your email. Please try again."

/-- `err.message || err.originalError || 'Failed to verify your email. Please try again.'`
(line 141), with JavaScript truthiness on the strings. -/
def verifyErrMsg (e : JSError) : String :=
  if e.message != "" then e.message
  else
    match e.originalError with
    | some o => if o != "" then o else verifyFallbackMsg
    | none => verifyFallbackMsg

/-- What a run of `handleVerify` leaves behind: the final component state,
how many times the external `verifyOTP` call was made, and the navigation
signalled from the success alert. -/
structure SubmitOutcome where
  state : VerifyState
  verifyCalls : Nat
  nav : Option Nav
deriving DecidableEq, Repr

/-- `handleVerify` (lines 89-145).  Joins the six cells; a join of length ≠ 6
sets the validation message and returns before `setIsLoading(true)` and
before any external call.  Otherwise the external verify result decides:
an error puts its message (with fallbacks) into `error`; success navigates
to the tabs area when a session is present, to sign-in otherwise.  The
`finally` block restores `isLoading := false` on every post-validation
path. -/
def handleVerify (st : VerifyState) (res : VerifyResult) : SubmitOutcome :=
  let code := String.join st.verificationCode
  if code.length ≠ 6 then
    { state := { st with error := some incompleteCodeMsg },
      verifyCalls := 0, nav := none }
  else
    match res.error with
    | some e =>
        { state := { st with error := some (verifyErrMsg e), isLoading := false },
          verifyCalls := 1, nav := none }
    | none =>
        if res.sessionPresent then
          { state := { st with error := none, isLoading := false },
            verifyCalls := 1, nav := some Nav.tabs }
        else
          { state := { st with error := none, isLoading := false },
            verifyCalls := 1, nav := some Nav.signIn }

/-- The fallback message of `handleResendCode` line 170. -/
def resendFallbackMsg : String :=
  "Failed to resend verification code"

/-- `err.message || 'Failed to resend verification code'` (line 170). -/
def resendErrMsg (e : JSError) : String :=
  if e.message != "" then e.message else resendFallbackMsg

/-- What a run of the resend operation leaves behind: the final component
state, how many times the external `resendVerificationEmail` call was made,
and whether the "Code Sent" alert was shown. -/
structure ResendOutcome where
  state : VerifyState
  resendCalls : Nat
  alertShown : Bool
deriving DecidableEq, Repr

/-- `handleResendCode` (lines 148-174), with the external resend result
passed in (`Option JSError`, modelled from the spec:
`resendVerificationEmail(email) -> {error?}`; the hook is not in the shown
source).  Returns immediately when the cooldown is positive; otherwise a
successful resend clears the error, sets the cooldown to 60 and shows the
alert, and a failed one stores the error message.  `isLoading` ends false
via the `finally` block. -/
def handleResendCode (st : VerifyState) (res : Option JSError) : ResendOutcome :=
  if st.resendCooldown > 0 then
    { state := st, resendCalls := 0, alertShown := false }
  else
    match res with
    | some e =>
        { state := { st with error := some (resendErrMsg e), isLoading := false },
          resendCalls := 1, alertShown := false }
    | none =>
        { state := { st with error := none, isLoading := false, resendCooldown := 60 },
          resendCalls := 1, alertShown := true }

/-- The user-facing resend operation: the "Resend Code" pressable carries
`disabled={resendCooldown > 0 || isLoading}` (line 239), so the handler only
fires when that condition is false. -/
def pressResendCode (st : VerifyState) (res : Option JSError) : ResendOutcome :=
  if st.resendCooldown > 0 || st.isLoading then
    { state := st, resendCalls := 0, alertShown := false }
  else
    handleResendCode st res

/-- One step of the cooldown effect (lines 35-41): while positive, after one
second the cooldown is decremented by one; at 0 the effect sets no timer. -/
def cooldownTick (c : Nat) : Nat :=
  if c > 0 then c - 1 else c

/-! ## Helper lemmas -/

theorem string_length_eq_zero_iff (s : String) : s.length = 0 ↔ s = "" := by
  constructor
  · intro h
    cases s with
    | mk data =>
      simp [String.length] at h
      simp [h]
  · intro h
    rw [h]
    rfl

theorem foldl_append_length (l : List String) (acc : String) :
    (l.foldl (fun r s => r ++ s) acc).length =
      acc.length + (l.map String.length).sum := by
  induction l generalizing acc with
  | nil => simp
  | cons a t ih => simp [List.foldl, ih, String.length_append]; omega

theorem join_length (l : List String) :
    (String.join l).length = (l.map String.length).sum := by
  have h := foldl_append_length l ""
  simpa [String.join] using h

theorem sum_lengths_eq_filled (l : List String)
    (h : ∀ c ∈ l, c.length ≤ 1) :
    (l.map String.length).sum = (l.filter (fun c => c != "")).length := by
  induction l with
  | nil => simp
  | cons a t ih =>
    have ha : a.length ≤ 1 := h a (List.mem_cons_self a t)
    have ht : ∀ c ∈ t, c.length ≤ 1 := fun c hc => h c (List.mem_cons_of_mem a hc)
    by_cases he : a = ""
    · subst he
      simp [List.filter_cons, ih ht]
    · have h1 : a.length = 1 := by
        have h0 : a.length ≠ 0 := fun hz => he ((string_length_eq_zero_iff a).mp hz)
        omega
      simp [List.filter_cons, he, ih ht, h1]
      omega

theorem set_self_of_getElem {α : Type} (l : List α) (i : Nat) (a : α)
    (h : l[i]? = some a) : l.set i a = l := by
  induction l generalizing i with
  | nil => simp at h
  | cons x t ih =>
    cases i with
    | zero =>
      simp at h
      simp [List.set, h]
    | succ j =>
      simp at h
      simp [List.set, ih j h]

/-! ## Claims about the verification state machine -/

/-- Claim C3: when fewer than six digits are filled in (six one-character
cells, at least one empty), `handleVerify` sets the incomplete-code
validation message, makes zero external verify calls, signals no navigation,
and leaves the rest of the state — in particular the digit array and the
busy flag — unchanged. -/
theorem C3_incomplete_code_rejected (st : VerifyState) (res : VerifyResult)
    (hcells : ∀ c ∈ st.verificationCode, c.length ≤ 1)
    (hfilled : (st.verificationCode.filter (fun c => c != "")).length < 6) :
    handleVerify st res =
      { state := { st with error := some incompleteCodeMsg },
        verifyCalls := 0, nav := none } := by
  have hj : (String.join st.verificationCode).length ≠ 6 := by
    rw [join_length, sum_lengths_eq_filled _ hcells]
    omega
  simp [handleVerify, hj]

/-- Witness for C3 at the spec's example array `["1","2","3","","",""]`. -/
theorem C3_witness :
    (∀ c ∈ (["1", "2", "3", "", "", ""] : List String), c.length ≤ 1) ∧
    ((["1", "2", "3", "", "", ""] : List String).filter (fun c => c != "")).length < 6 ∧
    handleVerify ⟨["1", "2", "3", "", "", ""], none, false, 0⟩ ⟨none, false⟩ =
      ⟨⟨["1", "2", "3", "", "", ""], some incompleteCodeMsg, false, 0⟩, 0, none⟩ :=
  ⟨by decide, by decide,
    C3_incomplete_code_rejected ⟨["1", "2", "3", "", "", ""], none, false, 0⟩
      ⟨none, false⟩ (by decide) (by decide)⟩

/-- Claim C4 (counterexample): an external verify error whose message is the
empty string does not end up in `lastError` as returned — the code
substitutes the fallback text instead. -/
theorem C4_empty_message_fallback :
    (handleVerify ⟨["1", "2", "3", "4", "5", "6"], none, false, 0⟩
        ⟨some ⟨"", none⟩, false⟩).state.error ≠ some "" ∧
    (handleVerify ⟨["1", "2", "3", "4", "5", "6"], none, false, 0⟩
        ⟨some ⟨"", none⟩, false⟩).state.error = some verifyFallbackMsg := by
  decide

/-- Claim C4 (amended): with all six digits present, a successful verify
with a session navigates to the tabs (main) area, a successful verify
without a session navigates to sign-in, and a failed verify stays put with
`lastError` set to the error's message — falling back to `originalError`
and then to the fixed fallback text when the message is empty. -/
theorem C4_submit_result_cases (st : VerifyState) (res : VerifyResult)
    (hlen : (String.join st.verificationCode).length = 6) :
    (res.error = none → res.sessionPresent = true →
      handleVerify st res =
        { state := { st with error := none, isLoading := false },
          verifyCalls := 1, nav := some Nav.tabs }) ∧
    (res.error = none → res.sessionPresent = false →
      handleVerify st res =
        { state := { st with error := none, isLoading := false },
          verifyCalls := 1, nav := some Nav.signIn }) ∧
    (∀ e, res.error = some e →
      handleVerify st res =
        { state := { st with error := some (verifyErrMsg e), isLoading := false },
          verifyCalls := 1, nav := none }) := by
  refine ⟨?_, ?_, ?_⟩
  · intro he hs
    simp [handleVerify, hlen, he, hs]
  · intro he hs
    simp [handleVerify, hlen, he, hs]
  · intro e he
    simp [handleVerify, hlen, he]

/-- Witness for C4 at a fully-filled code with a returned session. -/
theorem C4_witness :
    (String.join ["1", "2", "3", "4", "5", "6"]).length = 6 ∧
    handleVerify ⟨["1", "2", "3", "4", "5", "6"], none, true, 0⟩ ⟨none, true⟩ =
      ⟨⟨["1", "2", "3", "4", "5", "6"], none, false, 0⟩, 1, some Nav.tabs⟩ :=
  ⟨by decide,
    (C4_submit_result_cases ⟨["1", "2", "3", "4", "5", "6"], none, true, 0⟩
      ⟨none, true⟩ (by decide)).1 rfl rfl⟩

/-- Claim C10: `handleVerify` never writes to the six digit cells — on the
validation-failure path, the external-error path and both success paths the
code array of the resulting state is the input array. -/
theorem C10_submit_preserves_code (st : VerifyState) (res : VerifyResult) :
    (handleVerify st res).state.verificationCode = st.verificationCode := by
  rcases res with ⟨err, sp⟩
  by_cases h : (String.join st.verificationCode).length ≠ 6
  · simp [handleVerify, h]
  · cases err <;> cases sp <;> simp [handleVerify, h]

/-- Claim C5: pressing "Resend Code" is a no-op — no external call, state
and cooldown unchanged — whenever the cooldown is positive or a submit is
in flight (`isLoading`), via the pressable's disabled condition. -/
theorem C5_resend_guarded (st : VerifyState) (res : Option JSError)
    (h : st.resendCooldown > 0 ∨ st.isLoading = true) :
    pressResendCode st res =
      { state := st, resendCalls := 0, alertShown := false } := by
  rcases h with h | h
  · simp [pressResendCode, h]
  · simp [pressResendCode, h]

/-- Witness for C5 with a 30-second cooldown in progress. -/
theorem C5_witness :
    ((⟨["", "", "", "", "", ""], none, false, 30⟩ : VerifyState).resendCooldown > 0 ∨
      (⟨["", "", "", "", "", ""], none, false, 30⟩ : VerifyState).isLoading = true) ∧
    pressResendCode ⟨["", "", "", "", "", ""], none, false, 30⟩ none =
      ⟨⟨["", "", "", "", "", ""], none, false, 30⟩, 0, false⟩ :=
  ⟨Or.inl (by decide),
    C5_resend_guarded ⟨["", "", "", "", "", ""], none, false, 30⟩ none
      (Or.inl (by decide))⟩

theorem cooldownTick_iterate (k n : Nat) (h : k ≤ n) :
    cooldownTick^[k] n = n - k := by
  induction k generalizing n with
  | zero => simp
  | succ j ih =>
    rw [Function.iterate_succ_apply]
    have hn : n > 0 := by omega
    have ht : cooldownTick n = n - 1 := by simp [cooldownTick, hn]
    rw [ht, ih (n - 1) (by omega)]
    omega

/-- Claim C6: from an idle state (cooldown 0, not submitting), a successful
resend sets the cooldown to exactly 60; the one-second timer step brings it
from 60 to `60 - k` after any `k ≤ 60` seconds, reaching 0 after 60 seconds;
with cooldown 0 the press actually performs the external call; and a failed
resend leaves the cooldown at 0. -/
theorem C6_resend_cooldown_dynamics (st : VerifyState) (res : Option JSError)
    (k : Nat) (h0 : st.resendCooldown = 0) (hl : st.isLoading = false)
    (hk : k ≤ 60) :
    (pressResendCode st none).state.resendCooldown = 60 ∧
    cooldownTick^[k] 60 = 60 - k ∧
    cooldownTick^[60] 60 = 0 ∧
    (pressResendCode st res).resendCalls = 1 ∧
    (∀ e, (pressResendCode st (some e)).state.resendCooldown = 0) := by
  refine ⟨?_, cooldownTick_iterate k 60 hk, cooldownTick_iterate 60 60 (by omega), ?_, ?_⟩
  · simp [pressResendCode, handleResendCode, h0, hl]
  · rcases res with _ | e <;>
      simp [pressResendCode, handleResendCode, h0, hl]
  · intro e
    simp [pressResendCode, handleResendCode, h0, hl]

/-- Witness for C6 from an idle state, seven timer steps in. -/
theorem C6_witness :
    ((⟨["", "", "", "", "", ""], none, false, 0⟩ : VerifyState).resendCooldown = 0 ∧
      (⟨["", "", "", "", "", ""], none, false, 0⟩ : VerifyState).isLoading = false ∧
      7 ≤ 60) ∧
    ((pressResendCode ⟨["", "", "", "", "", ""], none, false, 0⟩ none).state.resendCooldown = 60 ∧
      cooldownTick^[7] 60 = 60 - 7 ∧
      cooldownTick^[60] 60 = 0 ∧
      (pressResendCode ⟨["", "", "", "", "", ""], none, false, 0⟩ none).resendCalls = 1 ∧
      (∀ e, (pressResendCode ⟨["", "", "", "", "", ""], none, false, 0⟩
        (some e)).state.resendCooldown = 0)) :=
  ⟨⟨rfl, rfl, by omega⟩,
    C6_resend_cooldown_dynamics ⟨["", "", "", "", "", ""], none, false, 0⟩ none 7
      rfl rfl (by omega)⟩

/-- Claim C7 (counterexample): entering "7" at index 0 and then clearing
index 0 does not restore an array whose cell 0 already held "5" — the cell
ends empty. -/
theorem C7_enter_clear_fails :
    (handleCodeChange (handleCodeChange ["5", "", "", "", "", ""] "7" 0).1 "" 0).1 ≠
      ["5", "", "", "", "", ""] := by
  decide

/-- Claim C7 (amended): entering a digit at index `i` and then clearing
index `i` restores the code array provided cell `i` was empty before the
entry (in general the two writes leave the array equal to the original with
cell `i` cleared). -/
theorem C7_enter_clear_restores (code : List String) (d : String) (i : Nat)
    (h : code[i]? = some "") :
    (handleCodeChange (handleCodeChange code d i).1 "" i).1 = code := by
  simp only [handleCodeChange, List.set_set]
  exact set_self_of_getElem code i "" h

/-- Witness for C7 on an all-empty array. -/
theorem C7_witness :
    (["", "", "", "", "", ""] : List String)[0]? = some "" ∧
    (handleCodeChange (handleCodeChange ["", "", "", "", "", ""] "9" 0).1 "" 0).1 =
      ["", "", "", "", "", ""] :=
  ⟨by decide, C7_enter_clear_restores ["", "", "", "", "", ""] "9" 0 (by decide)⟩

/-! ## Account deletion (`app/settings.tsx`) -/

/-- The user object returned by `supabase.auth.getUser()`; only the `id`
read by the deletion calls is modelled. -/
structure AuthUser where
  id : String
deriving DecidableEq, Repr

/-- Modelled from the spec: the external capability surface consumed by the
confirmed delete-account action — `getCurrentUser() -> user | null`,
`deleteProfileRecord(userId) -> {error?}`, `deleteAuthIdentity(userId) ->
{error?}` and `signOut() -> {error?}` (the Supabase SDK in `lib/supabase`
is not part of the shown source).  Each field is the result the
corresponding call would report. -/
structure DeleteEnv where
  getUserResult : Option AuthUser
  deleteProfileError : Option JSError
  deleteAuthError : Option JSError
  signOutError : Option JSError
deriving DecidableEq, Repr

/-- What a run of `confirmDeleteAccount` leaves behind: how many times each
external call was made, the navigation issued, and the alert text shown. -/
structure DeleteOutcome where
  profileDeleteCalls : Nat
  authDeleteCalls : Nat
  signOutCalls : Nat
  nav : Option Nav
  alert : Option String
deriving DecidableEq, Repr

/-- The combined alert of the catch block (lines 82-86):
`'Failed to delete account. Please try again or contact support.' +
(err.message ? '\n\nError: ' + err.message : '')`. -/
def deleteFailAlert (m : String) : String :=
  "Failed to delete account. Please try again or contact support." ++
    (if m != "" then "\n\nError: " ++ m else "")

/-- `confirmDeleteAccount` (lines 54-90): fetch the current user and throw
`'User not authenticated'` when null; delete the profile row and throw on
its error; delete the auth identity and throw on its error; then call
sign-out WITHOUT inspecting its result and navigate to sign-in.  Any thrown
error lands in the catch block which only shows the combined alert. -/
def confirmDeleteAccount (env : DeleteEnv) : DeleteOutcome :=
  match env.getUserResult with
  | none =>
      { profileDeleteCalls := 0, authDeleteCalls := 0, signOutCalls := 0,
        nav := none, alert := some (deleteFailAlert "User not authenticated") }
  | some _ =>
      match env.deleteProfileError with
      | some e =>
          { profileDeleteCalls := 1, authDeleteCalls := 0, signOutCalls := 0,
            nav := none, alert := some (deleteFailAlert e.message) }
      | none =>
          match env.deleteAuthError with
          | some e =>
              { profileDeleteCalls := 1, authDeleteCalls := 1, signOutCalls := 0,
                nav := none, alert := some (deleteFailAlert e.message) }
          | none =>
              { profileDeleteCalls := 1, authDeleteCalls := 1, signOutCalls := 1,
                nav := some Nav.signIn, alert := none }

/-- Claim C8: when `getUser` reports no current user, the confirmed deletion
aborts before any destructive call — no profile deletion, no auth-identity
deletion, no sign-out, no navigation — and the combined error alert carries
the `'User not authenticated'` message. -/
theorem C8_delete_requires_user (env : DeleteEnv)
    (h : env.getUserResult = none) :
    confirmDeleteAccount env =
      { profileDeleteCalls := 0, authDeleteCalls := 0, signOutCalls := 0,
        nav := none,
        alert := some (deleteFailAlert "User not authenticated") } := by
  simp [confirmDeleteAccount, h]

/-- Witness for C8 with every external call primed to succeed. -/
theorem C8_witness :
    (⟨none, none, none, none⟩ : DeleteEnv).getUserResult = none ∧
    confirmDeleteAccount ⟨none, none, none, none⟩ =
      ⟨0, 0, 0, none, some (deleteFailAlert "User not authenticated")⟩ :=
  ⟨rfl, C8_delete_requires_user ⟨none, none, none, none⟩ rfl⟩

/-- Claim C9 (counterexample): when the sign-out call reports an error, the
remaining step is NOT aborted — navigation to sign-in still happens — and
no alert is surfaced, because line 78 never reads the sign-out result. -/
theorem C9_signout_failure_ignored :
    (confirmDeleteAccount
        ⟨some ⟨"user-1"⟩, none, none, some ⟨"network down", none⟩⟩).nav
      = some Nav.signIn ∧
    (confirmDeleteAccount
        ⟨some ⟨"user-1"⟩, none, none, some ⟨"network down", none⟩⟩).alert
      = none ∧
    (confirmDeleteAccount
        ⟨some ⟨"user-1"⟩, none, none, some ⟨"network down", none⟩⟩).signOutCalls
      = 1 := by
  decide

/-- Claim C9 (amended): a failure reported by the fetch-user, the
profile-deletion or the auth-identity-deletion step aborts all remaining
steps and surfaces the combined error alert, with no compensating rollback;
the sign-out step's reported error is ignored — sign-out failure aborts
nothing, surfaces no alert, and navigation to sign-in proceeds regardless. -/
theorem C9_delete_failure_cases (env : DeleteEnv) :
    (env.getUserResult = none →
      confirmDeleteAccount env =
        ⟨0, 0, 0, none, some (deleteFailAlert "User not authenticated")⟩) ∧
    (∀ u e, env.getUserResult = some u → env.deleteProfileError = some e →
      confirmDeleteAccount env =
        ⟨1, 0, 0, none, some (deleteFailAlert e.message)⟩) ∧
    (∀ u e, env.getUserResult = some u → env.deleteProfileError = none →
      env.deleteAuthError = some e →
      confirmDeleteAccount env =
        ⟨1, 1, 0, none, some (deleteFailAlert e.message)⟩) ∧
    (∀ u, env.getUserResult = some u → env.deleteProfileError = none →
      env.deleteAuthError = none →
      confirmDeleteAccount env =
        ⟨1, 1, 1, some Nav.signIn, none⟩) := by
  refine ⟨?_, ?_, ?_, ?_⟩
  · intro h
    simp [confirmDeleteAccount, h]
  · intro u e hu hp
    simp [confirmDeleteAccount, hu, hp]
  · intro u e hu hp ha
    simp [confirmDeleteAccount, hu, hp, ha]
  · intro u hu hp ha
    simp [confirmDeleteAccount, hu, hp, ha]

/-- Witness for C9 on a run whose profile deletion fails. -/
theorem C9_witness :
    (⟨some ⟨"user-2"⟩, some ⟨"row locked", none⟩, none, none⟩ : DeleteEnv).getUserResult
      = some ⟨"user-2"⟩ ∧
    confirmDeleteAccount ⟨some ⟨"user-2"⟩, some ⟨"row locked", none⟩, none, none⟩ =
      ⟨1, 0, 0, none, some (deleteFailAlert "row locked")⟩ :=
  ⟨rfl,
    (C9_delete_failure_cases
        ⟨some ⟨"user-2"⟩, some ⟨"row locked", none⟩, none, none⟩).2.1
      ⟨"user-2"⟩ ⟨"row locked", none⟩ rfl rfl⟩

end DiteChat
